import Mathlib

/-!
# Verification of the scratch-blocks angle fields

Shallow embedding of `src/core/field_untiangle.js` (`Blockly.FieldUntiangle`)
and `src/unnamed/part_000` (`Blockly.FieldPercent`).

Both files implement an angle-picker field: a text input plus an SVG dial.
The numerically relevant code is:

* `classValidator` — parses the typed text with JavaScript `parseFloat` and,
  for the untiangle preset, folds the value with `% 360`, `+360` when
  negative and `-360` when above `WRAP = 180`;
* `onMouseMove` — converts a pointer offset `(dx, dy)` from the dial center
  into an angle with `Math.atan(-dy/dx)` plus quadrant corrections, the
  clockwise/offset transform and rounding with `Math.round(angle/ROUND)*ROUND`;
* `updateGraph_` — converts the current value into the handle point
  `center + radius * (cos, -sin)` and the arc-path flags;
* `showEditor_` — for the percent preset only, rescales the current value by
  `ROUND = 3.565` before the first redraw.

Preset constants (from the two files):
* untiangle: `CLOCKWISE = false`, `OFFSET = 90`, `WRAP = 180`, `ROUND = 15`;
* percent:   `CLOCKWISE = true`,  `OFFSET = 90`, `WRAP = 360`, `ROUND = 3.565`;
* both: `HALF = 60`, `RADIUS = 60 - 10 - 3 = 47`.

JavaScript numbers are modelled as `ℚ` where the code is pure arithmetic
(validators, flags) and as `ℝ` where trigonometry is involved (geometry).
The special values `NaN`/`±Infinity` arising from `(-dy)/dx` are modelled
explicitly by the inductive type `JSNum`; a `NaN` outcome of a whole
operation is `Option.none`.
-/

/-! ## JavaScript arithmetic primitives -/

/-- JavaScript truncation toward zero, used by the `%` operator. -/
def jsTrunc {α : Type} [LinearOrderedField α] [FloorRing α] (q : α) : ℤ :=
  if 0 ≤ q then ⌊q⌋ else ⌈q⌉

/-- JavaScript remainder `a % b` (for finite operands, `b ≠ 0`): the remainder
takes the sign of the dividend, `a % b = a - b * trunc (a / b)`. -/
def jsMod {α : Type} [LinearOrderedField α] [FloorRing α] (a b : α) : α :=
  a - b * (jsTrunc (a / b) : α)

/-- JavaScript `Math.round`: nearest integer, halves toward `+∞`. -/
def jsRound {α : Type} [LinearOrderedField α] [FloorRing α] (q : α) : ℤ :=
  ⌊q + 1 / 2⌋

/-! ## JavaScript `parseFloat`

`classValidator` in both files calls `parseFloat(text || 0)`.  We model
`parseFloat` on the character list of the string: skip leading whitespace,
an optional sign, a decimal mantissa (digits, optionally with one dot,
at least one digit in total), an optional exponent part that is consumed
only when at least one exponent digit follows.  The longest valid prefix
is parsed; if there is none the JavaScript result is `NaN`, modelled as
`none`.  (Non-finite literals such as `"Infinity"` are outside the scope
of the claims and are not modelled.) -/

/-- Consume leading decimal digits, returning the accumulated value, the
number of digits consumed, and the rest of the input. -/
def takeDigits : List Char → ℕ → ℕ → ℕ × ℕ × List Char
  | [], acc, k => (acc, k, [])
  | c :: cs, acc, k =>
    if c.isDigit then takeDigits cs (10 * acc + (c.toNat - 48)) (k + 1)
    else (acc, k, c :: cs)

/-- Parse the decimal mantissa `Digits [. Digits]` or `. Digits`;
`none` when no digit is present. -/
def parseMantissa (l : List Char) : Option (ℚ × List Char) :=
  let intPart := takeDigits l 0 0
  match intPart.2.2 with
  | '.' :: r2 =>
    let fracPart := takeDigits r2 0 0
    if intPart.2.1 = 0 ∧ fracPart.2.1 = 0 then none
    else some ((intPart.1 : ℚ) + (fracPart.1 : ℚ) / (10 ^ fracPart.2.1 : ℚ),
               fracPart.2.2)
  | _ => if intPart.2.1 = 0 then none else some ((intPart.1 : ℚ), intPart.2.2)

/-- Parse an optional exponent part `e|E [+|-] Digits`; the exponent is only
consumed when at least one digit follows, otherwise it contributes `0`. -/
def parseExp (l : List Char) : ℤ :=
  match l with
  | c :: rest =>
    if c = 'e' ∨ c = 'E' then
      match rest with
      | s :: rest2 =>
        if s = '+' ∨ s = '-' then
          let d := takeDigits rest2 0 0
          if d.2.1 = 0 then 0 else (if s = '-' then -(d.1 : ℤ) else (d.1 : ℤ))
        else
          let d := takeDigits rest 0 0
          if d.2.1 = 0 then 0 else (d.1 : ℤ)
      | [] => 0
    else 0
  | [] => 0

/-- Scale a rational by a power of ten (kept in `ℕ`-powers so that concrete
inputs evaluate by `decide`). -/
def scalePow10 (m : ℚ) (e : ℤ) : ℚ :=
  if 0 ≤ e then m * (10 : ℚ) ^ e.toNat else m / (10 : ℚ) ^ (-e).toNat

/-- JavaScript `parseFloat` on a character list. -/
def parseFloatList (l : List Char) : Option ℚ :=
  let l1 := l.dropWhile fun c => c = ' ' ∨ c = '\t' ∨ c = '\n' ∨ c = '\r'
  let signAndRest : ℚ × List Char :=
    match l1 with
    | '-' :: r => (-1, r)
    | '+' :: r => (1, r)
    | _ => (1, l1)
  match parseMantissa signAndRest.2 with
  | none => none
  | some (m, r) => some (signAndRest.1 * scalePow10 m (parseExp r))

/-- JavaScript `parseFloat` on a string; `none` models `NaN`. -/
def parseFloatJS (s : String) : Option ℚ :=
  parseFloatList s.data

/-- `text || 0`: the empty string is falsy, so `parseFloat` receives the
number `0`, which JavaScript coerces back to the string `"0"`. -/
def orZero (text : String) : String :=
  if text = "" then "0" else text

/-! ## The two `classValidator`s (numeric core and string form) -/

/-- Numeric core of `Blockly.FieldUntiangle.prototype.classValidator`
(field_untiangle.js lines 390-396): `n % 360`, `+ 360` when negative,
`- 360` when above `WRAP = 180`. -/
def untiangleNormalize {α : Type} [LinearOrderedField α] [FloorRing α]
    (v : α) : α :=
  let n := jsMod v 360
  let n1 := if n < 0 then n + 360 else n
  if n1 > 180 then n1 - 360 else n1

/-- `Blockly.FieldUntiangle.prototype.classValidator` (lines 382-398):
parse `text || 0` with `parseFloat`, reject `NaN`, then fold. -/
def untiangleClassValidator (text : String) : Option ℚ :=
  match parseFloatJS (orZero text) with
  | none => none
  | some n => some (untiangleNormalize n)

/-- `Blockly.FieldPercent.prototype.classValidator` (part_000 lines 383-392):
parse `text || 0` with `parseFloat`, reject `NaN`, return the number
unchanged. -/
def percentClassValidator (text : String) : Option ℚ :=
  match parseFloatJS (orZero text) with
  | none => none
  | some n => some n

/-- Modelled from the spec: the host field framework (the `FieldTextInput`
base class, not under `src/`) aborts a text change when `classValidator`
returns `null`, retaining the prior value; an accepted string becomes the
new value. -/
def percentTextEntryStep (oldVal : ℚ) (text : String) : ℚ :=
  match percentClassValidator text with
  | none => oldVal
  | some n => n

/-- Modelled from the spec: same host behaviour for the untiangle field. -/
def untiangleTextEntryStep (oldVal : ℚ) (text : String) : ℚ :=
  match untiangleClassValidator text with
  | none => oldVal
  | some n => n

/-! ## Editor-open value transform (`showEditor_`) -/

/-- `Blockly.FieldPercent.prototype.showEditor_` (part_000 lines 257-259):
`reset_percent = Number(this.getText()) * ROUND; this.setValue(reset_percent)`
with `ROUND = 3.565`, executed before `updateGraph_` runs.  The committed
value as a function of the displayed text value. -/
def percentShowEditorValue (t : ℚ) : ℚ :=
  let reset_percent := t * (3565 / 1000)
  reset_percent

/-- `Blockly.FieldUntiangle.prototype.showEditor_` (lines 254-259) commits no
value change before `updateGraph_`: the value at first redraw is the
displayed one. -/
def untiangleShowEditorValue (t : ℚ) : ℚ := t

/-! ## Arc-path flags (`updateGraph_`) -/

/-- The two SVG arc flags from `updateGraph_` (field_untiangle.js lines
353-358, part_000 lines 354-359):
`angleDegrees = v % 360 + OFFSET`,
`largeFlag = |angleDegrees - OFFSET| > 180 ? 1 : 0`,
`sweepFlag = Number(CLOCKWISE)`, flipped to `1 - sweepFlag` when
`angleDegrees < OFFSET`. -/
def updateGraphFlags (clockwise : Bool) (offset : ℚ) (v : ℚ) : ℕ × ℕ :=
  let angleDegrees := jsMod v 360 + offset
  let largeFlag : ℕ := if |angleDegrees - offset| > 180 then 1 else 0
  let sweepFlag : ℕ := if clockwise then 1 else 0
  let sweepFlag := if angleDegrees < offset then 1 - sweepFlag else sweepFlag
  (largeFlag, sweepFlag)

/-! ### Evaluation lemmas for concrete strings

`Rat` arithmetic does not reduce by `whnf` (its `gcd`-based normalisation is
compiled by well-founded recursion), so each concrete parse is first
normalised by `rfl` up to the residual rational arithmetic and then finished
by `norm_num`. -/

/-- `parseFloat("abc")` is `NaN`. -/
lemma parseFloatJS_abc : parseFloatJS "abc" = none := rfl

/-- `parseFloat("12abc")` parses the numeric prefix `12`. -/
lemma parseFloatJS_12abc : parseFloatJS "12abc" = some 12 := by
  have h : parseFloatJS "12abc" = some (1 * scalePow10 ((12 : ℕ) : ℚ) 0) := rfl
  rw [h, scalePow10]
  norm_num

/-- `parseFloat("200")` parses `200`. -/
lemma parseFloatJS_200 : parseFloatJS "200" = some 200 := by
  have h : parseFloatJS "200" = some (1 * scalePow10 ((200 : ℕ) : ℚ) 0) := rfl
  rw [h, scalePow10]
  norm_num

/-- `parseFloat("0")` parses `0` (the `text || 0` path for empty input). -/
lemma parseFloatJS_zero : parseFloatJS "0" = some 0 := by
  have h : parseFloatJS "0" = some (1 * scalePow10 ((0 : ℕ) : ℚ) 0) := rfl
  rw [h, scalePow10]
  norm_num

/-- `parseFloat("42")` parses `42`. -/
lemma parseFloatJS_42 : parseFloatJS "42" = some 42 := by
  have h : parseFloatJS "42" = some (1 * scalePow10 ((42 : ℕ) : ℚ) 0) := rfl
  rw [h, scalePow10]
  norm_num

/-! ## Geometry (`onMouseMove` and `updateGraph_`), over `ℝ`

`goog.math.toRadians(d) = d * π / 180`, `goog.math.toDegrees(r) = r * 180 / π`. -/

noncomputable def toRadians (d : ℝ) : ℝ := d * (Real.pi / 180)

noncomputable def toDegrees (r : ℝ) : ℝ := r * (180 / Real.pi)

/-- JavaScript number values that can come out of `(-dy)/dx`: a finite real,
`±Infinity` (division of a nonzero value by `0`), or `NaN` (`0/0`). -/
inductive JSNum : Type
  | nan : JSNum
  | posInf : JSNum
  | negInf : JSNum
  | fin : ℝ → JSNum

/-- The JavaScript expression `(-dy) / dx` on finite operands. -/
noncomputable def jsDivNeg (dy dx : ℝ) : JSNum :=
  if dx = 0 then
    if 0 < -dy then JSNum.posInf
    else if -dy < 0 then JSNum.negInf
    else JSNum.nan
  else JSNum.fin (-dy / dx)

/-- `Math.atan(-dy/dx)`: `atan(±Infinity) = ±π/2`, `atan(NaN) = NaN`
(modelled as `none`; the `isNaN(angle)` guard in `onMouseMove` catches
exactly this case). -/
noncomputable def atanResult (dy dx : ℝ) : Option ℝ :=
  match jsDivNeg dy dx with
  | JSNum.nan => none
  | JSNum.posInf => some (Real.pi / 2)
  | JSNum.negInf => some (-(Real.pi / 2))
  | JSNum.fin x => some (Real.arctan x)

/-- The pointer-to-degrees computation of `onMouseMove`
(field_untiangle.js lines 288-308, part_000 lines 289-309), parametrised by
the preset constants `CLOCKWISE`, `OFFSET`, `ROUND`:
`angle = toDegrees(atan(-dy/dx))`; `+180` when `dx < 0`, else `+360` when
`dy > 0`; then `OFFSET + 360 - angle` when clockwise else `angle - OFFSET`;
then `Math.round(angle/ROUND)*ROUND` when `ROUND` is nonzero.
`none` models the early return on `isNaN(angle)`. -/
noncomputable def pointToDegrees (clockwise : Bool) (offset rnd : ℝ)
    (dx dy : ℝ) : Option ℝ :=
  (atanResult dy dx).map fun a0 =>
    let angle1 := toDegrees a0
    let angle2 := if dx < 0 then angle1 + 180
                  else if dy > 0 then angle1 + 360 else angle1
    let angle3 := if clockwise then offset + 360 - angle2 else angle2 - offset
    if rnd ≠ 0 then ((jsRound (angle3 / rnd) : ℤ) : ℝ) * rnd else angle3

/-- The handle point of `updateGraph_` (field_untiangle.js lines 339-352,
part_000 lines 340-353): `angleDegrees = v % 360 + OFFSET`, mirrored about
the offset axis when clockwise (`angleRadians = 2*offsetRad - angleRadians`),
then `(HALF + cos * RADIUS, HALF - sin * RADIUS)`. -/
noncomputable def updateGraphPoint (clockwise : Bool) (offset half radius : ℝ)
    (v : ℝ) : ℝ × ℝ :=
  let angleDegrees := jsMod v 360 + offset
  let angleRadians := toRadians angleDegrees
  let a := if clockwise then 2 * toRadians offset - angleRadians
           else angleRadians
  (half + Real.cos a * radius, half - Real.sin a * radius)

/-- The value stored by the untiangle `onMouseMove` (lines 309-311): the
pointer angle is passed through `callValidator` (= `classValidator`, the
fold of `untiangleNormalize`) and committed with `setValue`; on the
`isNaN` early return the value is untouched. -/
noncomputable def untiangleMouseMoveStep (oldVal : ℝ) (dx dy : ℝ) : ℝ :=
  match pointToDegrees false 90 15 dx dy with
  | none => oldVal
  | some angle => untiangleNormalize angle

/-- The value stored by the percent `onMouseMove` (part_000 line 312):
`setValue(angle)` with no validator call; on the `isNaN` early return the
value is untouched. -/
noncomputable def percentMouseMoveStep (oldVal : ℝ) (dx dy : ℝ) : ℝ :=
  match pointToDegrees true 90 (3565 / 1000) dx dy with
  | none => oldVal
  | some angle => angle

/-- Displayed text and committed value of the percent `onMouseMove`
(part_000 lines 310-312): the HTML input shows
`Math.floor((angle % 360) / ROUND)` while `setValue` receives `angle`. -/
noncomputable def percentMouseMoveOutputs (dx dy : ℝ) : Option (ℤ × ℝ) :=
  (pointToDegrees true 90 (3565 / 1000) dx dy).map fun angle =>
    let tmp := jsMod angle 360
    (⌊tmp / (3565 / 1000)⌋, angle)

/-- Displayed text and committed value of the untiangle `onMouseMove`
(lines 309-311): both are the validated angle. -/
noncomputable def untiangleMouseMoveOutputs (dx dy : ℝ) : Option (ℝ × ℝ) :=
  (pointToDegrees false 90 15 dx dy).map fun angle =>
    let validated := untiangleNormalize angle
    (validated, validated)

/-! ## Basic facts about the conversions and JavaScript arithmetic -/

lemma toDegrees_toRadians (x : ℝ) : toDegrees (toRadians x) = x := by
  unfold toDegrees toRadians
  have hπ : Real.pi ≠ 0 := Real.pi_ne_zero
  field_simp

lemma toRadians_lt_toRadians {a b : ℝ} (h : a < b) :
    toRadians a < toRadians b := by
  unfold toRadians
  have hp : 0 < Real.pi / 180 := by positivity
  exact mul_lt_mul_of_pos_right h hp

lemma toRadians_90 : toRadians 90 = Real.pi / 2 := by
  unfold toRadians; ring

lemma toRadians_270 : toRadians 270 = Real.pi + Real.pi / 2 := by
  unfold toRadians; ring

lemma toRadians_360 : toRadians 360 = 2 * Real.pi := by
  unfold toRadians; ring

lemma toRadians_nonneg {a : ℝ} (h : 0 ≤ a) : 0 ≤ toRadians a := by
  unfold toRadians
  have hp : 0 ≤ Real.pi / 180 := by positivity
  exact mul_nonneg h hp

lemma toDegrees_pi_div_two : toDegrees (Real.pi / 2) = 90 := by
  unfold toDegrees
  have hπ : Real.pi ≠ 0 := Real.pi_ne_zero
  field_simp
  ring

lemma toDegrees_neg_pi_div_two : toDegrees (-(Real.pi / 2)) = -90 := by
  unfold toDegrees
  have hπ : Real.pi ≠ 0 := Real.pi_ne_zero
  field_simp
  ring

lemma toDegrees_sub_pi (x : ℝ) : toDegrees (x - Real.pi) = toDegrees x - 180 := by
  unfold toDegrees
  have hπ : Real.pi ≠ 0 := Real.pi_ne_zero
  field_simp
  ring

lemma toDegrees_sub_two_pi (x : ℝ) :
    toDegrees (x - 2 * Real.pi) = toDegrees x - 360 := by
  unfold toDegrees
  have hπ : Real.pi ≠ 0 := Real.pi_ne_zero
  field_simp
  ring

/-- The JavaScript remainder by `360` is a shift of the argument by an
integer multiple of `360` (the definition names the multiple). -/
lemma jsMod_eq_sub (v : ℝ) :
    ∃ k : ℤ, jsMod v 360 = v - 360 * (k : ℝ) :=
  ⟨jsTrunc (v / 360), rfl⟩

/-- Bounds of the JavaScript remainder: `v % 360 ∈ (-360, 360)`. -/
lemma jsMod_360_bounds (v : ℝ) : -360 < jsMod v 360 ∧ jsMod v 360 < 360 := by
  have hv : 360 * (v / 360) = v := by field_simp
  unfold jsMod jsTrunc
  by_cases h : 0 ≤ v / 360
  · rw [if_pos h]
    have h1 := Int.floor_le (v / 360)
    have h2 := Int.lt_floor_add_one (v / 360)
    constructor <;> linarith
  · rw [if_neg h]
    have h1 := Int.le_ceil (v / 360)
    have h2 := Int.ceil_lt_add_one (v / 360)
    constructor <;> linarith

/-- The JavaScript remainder of a nonnegative dividend by `360` is
nonnegative. -/
lemma jsMod_360_nonneg {v : ℝ} (h : 0 ≤ v) : 0 ≤ jsMod v 360 := by
  have hv : 360 * (v / 360) = v := by field_simp
  have hq : 0 ≤ v / 360 := by positivity
  unfold jsMod jsTrunc
  rw [if_pos hq]
  have h1 := Int.floor_le (v / 360)
  linarith

/-- Every real is within `[0, 360)` of an integer multiple of `360`. -/
lemma exists_shift360 (x : ℝ) :
    ∃ k : ℤ, 0 ≤ x - 360 * (k : ℝ) ∧ x - 360 * (k : ℝ) < 360 := by
  refine ⟨⌊x / 360⌋, ?_, ?_⟩
  · have h := Int.floor_le (x / 360)
    have hx : 360 * (x / 360) = x := by field_simp
    linarith
  · have h := Int.lt_floor_add_one (x / 360)
    have hx : 360 * (x / 360) = x := by field_simp
    linarith

/-- `Math.round(x/r)*r` differs from `x` by at most `r/2`, for `r > 0`. -/
lemma jsRound_mul_bound (r x : ℝ) (hr : 0 < r) :
    |((jsRound (x / r) : ℤ) : ℝ) * r - x| ≤ r / 2 := by
  have h1 := Int.floor_le (x / r + 1 / 2)
  have h2 := Int.lt_floor_add_one (x / r + 1 / 2)
  have hx : x / r * r = x := div_mul_cancel₀ x hr.ne'
  have h1' := mul_le_mul_of_nonneg_right h1 hr.le
  have h2' := mul_lt_mul_of_pos_right h2 hr
  rw [jsRound, abs_le]
  constructor <;> nlinarith

/-- Quadrant recovery: for a drawn angle `φ ∈ [0, 360)` the `onMouseMove`
pipeline — `atan((-dy)/dx)` with `atan(±∞) = ±π/2`, `+180` when `dx < 0`,
else `+360` when `dy > 0` — recovers `φ` exactly from the handle offset
`dx = cos φ · R`, `dy = -sin φ · R` (screen coordinates), for any radius
`R > 0`. -/
lemma angle_recover (φ R : ℝ) (hR : 0 < R) (h0 : 0 ≤ φ) (h1 : φ < 360) :
    ∃ a0 : ℝ,
      atanResult (-(Real.sin (toRadians φ) * R)) (Real.cos (toRadians φ) * R)
        = some a0 ∧
      (if Real.cos (toRadians φ) * R < 0 then toDegrees a0 + 180
       else if -(Real.sin (toRadians φ) * R) > 0 then toDegrees a0 + 360
       else toDegrees a0) = φ := by
  have hπ := Real.pi_pos
  rcases lt_trichotomy φ 90 with hA | hB | hC
  · -- first quadrant: 0 ≤ φ < 90
    have hθ0 : 0 ≤ toRadians φ := toRadians_nonneg h0
    have hθlt : toRadians φ < Real.pi / 2 := by
      have := toRadians_lt_toRadians hA
      rwa [toRadians_90] at this
    have hcos : 0 < Real.cos (toRadians φ) :=
      Real.cos_pos_of_mem_Ioo ⟨by linarith, hθlt⟩
    have hsin : 0 ≤ Real.sin (toRadians φ) :=
      Real.sin_nonneg_of_nonneg_of_le_pi hθ0 (by linarith)
    have hdx : 0 < Real.cos (toRadians φ) * R := mul_pos hcos hR
    have hdy : -(Real.sin (toRadians φ) * R) ≤ 0 := by nlinarith
    refine ⟨toRadians φ, ?_, ?_⟩
    · have harg : -(-(Real.sin (toRadians φ) * R)) / (Real.cos (toRadians φ) * R)
          = Real.tan (toRadians φ) := by
        rw [neg_neg, Real.tan_eq_sin_div_cos, mul_div_mul_right _ _ hR.ne']
      simp only [atanResult, jsDivNeg, if_neg hdx.ne', harg,
        Real.arctan_tan (by linarith) hθlt]
    · rw [if_neg (not_lt.mpr hdx.le), if_neg (not_lt.mpr hdy),
        toDegrees_toRadians]
  · -- φ = 90: the pointer is straight up, dx = 0, dy = -R
    subst hB
    have hθ : toRadians 90 = Real.pi / 2 := toRadians_90
    refine ⟨Real.pi / 2, ?_, ?_⟩
    · simp only [atanResult, jsDivNeg, hθ, Real.cos_pi_div_two,
        Real.sin_pi_div_two, zero_mul, one_mul, neg_neg, eq_self_iff_true,
        if_true]
      rw [if_pos hR]
    · rw [hθ, Real.cos_pi_div_two, Real.sin_pi_div_two, zero_mul, one_mul]
      rw [if_neg (by norm_num), if_neg (by simp [not_lt]; linarith),
        toDegrees_pi_div_two]
  · rcases lt_trichotomy φ 270 with hC2 | hD | hE
    · -- second and third quadrants: 90 < φ < 270, cos < 0
      have hθgt : Real.pi / 2 < toRadians φ := by
        have := toRadians_lt_toRadians hC
        rwa [toRadians_90] at this
      have hθlt : toRadians φ < Real.pi + Real.pi / 2 := by
        have := toRadians_lt_toRadians hC2
        rwa [toRadians_270] at this
      have hcos : Real.cos (toRadians φ) < 0 :=
        Real.cos_neg_of_pi_div_two_lt_of_lt hθgt (by linarith)
      have hdx : Real.cos (toRadians φ) * R < 0 := mul_neg_of_neg_of_pos hcos hR
      refine ⟨toRadians φ - Real.pi, ?_, ?_⟩
      · have harg : -(-(Real.sin (toRadians φ) * R)) / (Real.cos (toRadians φ) * R)
            = Real.tan (toRadians φ) := by
          rw [neg_neg, Real.tan_eq_sin_div_cos, mul_div_mul_right _ _ hR.ne']
        have hper : Real.tan (toRadians φ) = Real.tan (toRadians φ - Real.pi) :=
          (Real.tan_periodic.sub_eq (toRadians φ)).symm
        have harc : Real.arctan (Real.tan (toRadians φ - Real.pi))
            = toRadians φ - Real.pi :=
          Real.arctan_tan (by linarith) (by linarith)
        simp only [atanResult, jsDivNeg, if_neg hdx.ne, harg, hper, harc]
      · rw [if_pos hdx, toDegrees_sub_pi, toDegrees_toRadians]
        ring
    · -- φ = 270: the pointer is straight down, dx = 0, dy = R
      subst hD
      have hθ : toRadians 270 = Real.pi + Real.pi / 2 := toRadians_270
      have hcos : Real.cos (toRadians 270) = 0 := by
        rw [hθ, Real.cos_add, Real.cos_pi, Real.sin_pi, Real.cos_pi_div_two]
        ring
      have hsin : Real.sin (toRadians 270) = -1 := by
        rw [hθ, Real.sin_add, Real.cos_pi, Real.sin_pi, Real.sin_pi_div_two]
        ring
      refine ⟨-(Real.pi / 2), ?_, ?_⟩
      · simp only [atanResult, jsDivNeg, hcos, hsin, zero_mul, neg_one_mul,
          neg_neg, eq_self_iff_true, if_true]
        rw [if_neg (by linarith : ¬(0 : ℝ) < -R),
          if_pos (by linarith : -R < 0)]
      · rw [hcos, hsin, zero_mul, neg_one_mul, neg_neg]
        rw [if_neg (by norm_num), if_pos (by linarith : (0 : ℝ) < R),
          toDegrees_neg_pi_div_two]
        ring
    · -- fourth quadrant: 270 < φ < 360, cos > 0, sin < 0
      have hθgt : Real.pi + Real.pi / 2 < toRadians φ := by
        have := toRadians_lt_toRadians hE
        rwa [toRadians_270] at this
      have hθlt : toRadians φ < 2 * Real.pi := by
        have := toRadians_lt_toRadians h1
        rwa [toRadians_360] at this
      have hcos : 0 < Real.cos (toRadians φ) := by
        have : Real.cos (toRadians φ - 2 * Real.pi) = Real.cos (toRadians φ) :=
          Real.cos_sub_two_pi (toRadians φ)
        rw [← this]
        exact Real.cos_pos_of_mem_Ioo ⟨by linarith, by linarith⟩
      have hsin : Real.sin (toRadians φ) < 0 := by
        have h2 : Real.sin (toRadians φ - 2 * Real.pi) = Real.sin (toRadians φ) :=
          Real.sin_sub_two_pi (toRadians φ)
        rw [← h2]
        exact Real.sin_neg_of_neg_of_neg_pi_lt (by linarith) (by linarith)
      have hdx : 0 < Real.cos (toRadians φ) * R := mul_pos hcos hR
      have hdy : 0 < -(Real.sin (toRadians φ) * R) := by nlinarith
      refine ⟨toRadians φ - 2 * Real.pi, ?_, ?_⟩
      · have harg : -(-(Real.sin (toRadians φ) * R)) / (Real.cos (toRadians φ) * R)
            = Real.tan (toRadians φ) := by
          rw [neg_neg, Real.tan_eq_sin_div_cos, mul_div_mul_right _ _ hR.ne']
        have hper : Real.tan (toRadians φ) = Real.tan (toRadians φ - 2 * Real.pi) := by
          have t2 : Real.tan (toRadians φ - Real.pi) = Real.tan (toRadians φ) :=
            Real.tan_periodic.sub_eq (toRadians φ)
          have t1 : Real.tan (toRadians φ - Real.pi - Real.pi)
              = Real.tan (toRadians φ - Real.pi) :=
            Real.tan_periodic.sub_eq (toRadians φ - Real.pi)
          rw [show toRadians φ - 2 * Real.pi = toRadians φ - Real.pi - Real.pi
            by ring, t1, t2]
        have harc : Real.arctan (Real.tan (toRadians φ - 2 * Real.pi))
            = toRadians φ - 2 * Real.pi :=
          Real.arctan_tan (by linarith) (by linarith)
        simp only [atanResult, jsDivNeg, if_neg hdx.ne', harg, hper, harc]
      · rw [if_neg (not_lt.mpr hdx.le), if_pos hdy, toDegrees_sub_two_pi,
          toDegrees_toRadians]
        ring

/-- Round trip of the dial geometry: drawing the handle for value `v` with
`updateGraph_` and feeding the resulting offset from the center back through
the `onMouseMove` pointer-to-degrees computation yields an angle that agrees
with `v` modulo 360 up to half a rounding step, for either rotation
direction, any offset, and any positive rounding constant. -/
lemma mouseMove_roundtrip (cw : Bool) (o r v : ℝ) (hr : 0 < r) :
    ∃ a : ℝ, ∃ k : ℤ,
      pointToDegrees cw o r ((updateGraphPoint cw o 60 47 v).1 - 60)
        ((updateGraphPoint cw o 60 47 v).2 - 60) = some a ∧
      |a - (v - 360 * (k : ℝ))| ≤ r / 2 := by
  obtain ⟨kt, hkt⟩ := jsMod_eq_sub v
  cases cw
  · -- counterclockwise (untiangle): no mirror, final angle is `angle - o`
    have hpt1 : (updateGraphPoint false o 60 47 v).1 - 60
        = Real.cos (toRadians (jsMod v 360 + o)) * 47 := by
      simp only [updateGraphPoint, Bool.false_eq_true, if_false]
      ring
    have hpt2 : (updateGraphPoint false o 60 47 v).2 - 60
        = -(Real.sin (toRadians (jsMod v 360 + o)) * 47) := by
      simp only [updateGraphPoint, Bool.false_eq_true, if_false]
      ring
    obtain ⟨k2, hφ0, hφ1⟩ := exists_shift360 (jsMod v 360 + o)
    set φ := jsMod v 360 + o - 360 * (k2 : ℝ) with hφdef
    have hrad : toRadians (jsMod v 360 + o)
        = toRadians φ + (k2 : ℝ) * (2 * Real.pi) := by
      rw [hφdef]; unfold toRadians; ring
    have hcos : Real.cos (toRadians (jsMod v 360 + o)) = Real.cos (toRadians φ) := by
      rw [hrad, Real.cos_add_int_mul_two_pi]
    have hsin : Real.sin (toRadians (jsMod v 360 + o)) = Real.sin (toRadians φ) := by
      rw [hrad, Real.sin_add_int_mul_two_pi]
    obtain ⟨a0, hat, hcorr⟩ := angle_recover φ 47 (by norm_num) hφ0 hφ1
    have hdx : (updateGraphPoint false o 60 47 v).1 - 60
        = Real.cos (toRadians φ) * 47 := by rw [hpt1, hcos]
    have hdy : (updateGraphPoint false o 60 47 v).2 - 60
        = -(Real.sin (toRadians φ) * 47) := by rw [hpt2, hsin]
    rw [hdx, hdy]
    refine ⟨((jsRound ((φ - o) / r) : ℤ) : ℝ) * r, kt + k2, ?_, ?_⟩
    · simp only [pointToDegrees, hat, Option.map_some', Bool.false_eq_true,
        if_false]
      rw [hcorr, if_pos hr.ne']
    · have heq : φ - o = v - 360 * ((kt + k2 : ℤ) : ℝ) := by
        rw [hφdef, hkt]; push_cast; ring
      rw [heq]
      exact jsRound_mul_bound r _ hr
  · -- clockwise (percent): mirror about the offset axis, final angle is
    -- `o + 360 - angle`
    have hmir : 2 * toRadians o - toRadians (jsMod v 360 + o)
        = toRadians (2 * o - (jsMod v 360 + o)) := by
      unfold toRadians; ring
    have hpt1 : (updateGraphPoint true o 60 47 v).1 - 60
        = Real.cos (toRadians (2 * o - (jsMod v 360 + o))) * 47 := by
      simp only [updateGraphPoint, if_true]
      rw [← hmir]
      ring
    have hpt2 : (updateGraphPoint true o 60 47 v).2 - 60
        = -(Real.sin (toRadians (2 * o - (jsMod v 360 + o))) * 47) := by
      simp only [updateGraphPoint, if_true]
      rw [← hmir]
      ring
    obtain ⟨k2, hφ0, hφ1⟩ := exists_shift360 (2 * o - (jsMod v 360 + o))
    set φ := 2 * o - (jsMod v 360 + o) - 360 * (k2 : ℝ) with hφdef
    have hrad : toRadians (2 * o - (jsMod v 360 + o))
        = toRadians φ + (k2 : ℝ) * (2 * Real.pi) := by
      rw [hφdef]; unfold toRadians; ring
    have hcos : Real.cos (toRadians (2 * o - (jsMod v 360 + o)))
        = Real.cos (toRadians φ) := by
      rw [hrad, Real.cos_add_int_mul_two_pi]
    have hsin : Real.sin (toRadians (2 * o - (jsMod v 360 + o)))
        = Real.sin (toRadians φ) := by
      rw [hrad, Real.sin_add_int_mul_two_pi]
    obtain ⟨a0, hat, hcorr⟩ := angle_recover φ 47 (by norm_num) hφ0 hφ1
    have hdx : (updateGraphPoint true o 60 47 v).1 - 60
        = Real.cos (toRadians φ) * 47 := by rw [hpt1, hcos]
    have hdy : (updateGraphPoint true o 60 47 v).2 - 60
        = -(Real.sin (toRadians φ) * 47) := by rw [hpt2, hsin]
    rw [hdx, hdy]
    refine ⟨((jsRound ((o + 360 - φ) / r) : ℤ) : ℝ) * r, kt - 1 - k2, ?_, ?_⟩
    · simp only [pointToDegrees, hat, Option.map_some', if_true]
      rw [hcorr, if_pos hr.ne']
    · have heq : o + 360 - φ = v - 360 * ((kt - 1 - k2 : ℤ) : ℝ) := by
        rw [hφdef, hkt]; push_cast; ring
      rw [heq]
      exact jsRound_mul_bound r _ hr

/-- The `atan((-dy)/dx)` step is `NaN` exactly for the pointer at the dial
center: `dx = 0` and `dy = 0`. -/
lemma atanResult_none_iff (dy dx : ℝ) :
    atanResult dy dx = none ↔ dx = 0 ∧ dy = 0 := by
  unfold atanResult jsDivNeg
  by_cases hdx : dx = 0
  · rw [if_pos hdx]
    by_cases h1 : 0 < -dy
    · rw [if_pos h1]
      show some (Real.pi / 2) = none ↔ dx = 0 ∧ dy = 0
      constructor
      · intro h; exact Option.noConfusion h
      · rintro ⟨h2, h3⟩; rw [h3] at h1; norm_num at h1
    · rw [if_neg h1]
      by_cases h2 : -dy < 0
      · rw [if_pos h2]
        show some (-(Real.pi / 2)) = none ↔ dx = 0 ∧ dy = 0
        constructor
        · intro h; exact Option.noConfusion h
        · rintro ⟨h3, h4⟩; rw [h4] at h2; norm_num at h2
      · rw [if_neg h2]
        show (none : Option ℝ) = none ↔ dx = 0 ∧ dy = 0
        have hdy : dy = 0 := by
          push_neg at h1 h2
          linarith
        simp [hdx, hdy]
  · rw [if_neg hdx]
    show some (Real.arctan (-dy / dx)) = none ↔ dx = 0 ∧ dy = 0
    constructor
    · intro h; exact Option.noConfusion h
    · rintro ⟨h2, h3⟩; exact absurd h2 hdx

/-- `pointToDegrees` drops the event (returns `none`) exactly for the pointer
at the dial center. -/
lemma pointToDegrees_none_iff (cw : Bool) (o r dx dy : ℝ) :
    pointToDegrees cw o r dx dy = none ↔ dx = 0 ∧ dy = 0 := by
  rw [pointToDegrees, Option.map_eq_none', atanResult_none_iff]

/-- Straight up from the center (`dx = 0, dy = -50`), the percent preset
computes `atan(+∞) = 90°`, hence `90 + 360 - 90 = 360`, then rounds by
`3.565`: `Math.round(360/3.565) = 101`, committing `101 · 3.565 = 360.065`. -/
lemma pointToDegrees_percent_up :
    pointToDegrees true 90 (3565 / 1000) 0 (-50) = some (72013 / 200) := by
  have hat : atanResult (-50 : ℝ) 0 = some (Real.pi / 2) := by
    unfold atanResult jsDivNeg
    norm_num
  simp only [pointToDegrees, hat, Option.map_some', toDegrees_pi_div_two]
  rw [if_neg (by norm_num : ¬(0 : ℝ) < 0), if_neg (by norm_num : ¬(0 : ℝ) < -50),
    if_pos (by norm_num : (3565 / 1000 : ℝ) ≠ 0)]
  have hfl : jsRound ((90 + 360 - 90) / (3565 / 1000) : ℝ) = 101 := by
    rw [jsRound, Int.floor_eq_iff]
    constructor <;> norm_num
  simp only [if_true]
  rw [hfl]
  norm_num

/-- With the pointer due east of the center (`dx = 47, dy = 0`), the
untiangle preset computes `atan(0) = 0`, hence `0 - 90 = -90`, and
`Math.round(-90/15)*15 = -90`. -/
lemma pointToDegrees_untiangle_east :
    pointToDegrees false 90 15 47 0 = some (-90) := by
  have hat : atanResult (0 : ℝ) 47 = some 0 := by
    unfold atanResult jsDivNeg
    rw [if_neg (by norm_num : (47 : ℝ) ≠ 0)]
    norm_num [Real.arctan_zero]
  simp only [pointToDegrees, hat, Option.map_some']
  rw [if_neg (by norm_num : ¬(47 : ℝ) < 0), if_neg (by norm_num : ¬(0 : ℝ) > 0),
    if_pos (by norm_num : (15 : ℝ) ≠ 0)]
  have h0 : toDegrees 0 = 0 := by unfold toDegrees; ring
  rw [h0]
  have hfl : jsRound ((0 - 90) / 15 : ℝ) = -6 := by
    rw [jsRound, Int.floor_eq_iff]
    constructor <;> norm_num
  simp only [Bool.false_eq_true, if_false]
  rw [hfl]
  norm_num

/-- Folding the committed percent value `360.065` by `% 360` gives `0.065`,
and `Math.floor(0.065 / 3.565) = 0`. -/
lemma percent_display_at_up :
    ⌊jsMod (72013 / 200 : ℝ) 360 / (3565 / 1000)⌋ = 0 := by
  have hm : jsMod (72013 / 200 : ℝ) 360 = 13 / 200 := by
    unfold jsMod jsTrunc
    rw [if_pos (by norm_num : (0 : ℝ) ≤ 72013 / 200 / 360)]
    have : ⌊(72013 / 200 / 360 : ℝ)⌋ = 1 := by
      rw [Int.floor_eq_iff]
      constructor <;> norm_num
    rw [this]
    norm_num
  rw [hm, Int.floor_eq_iff]
  constructor <;> norm_num

/-- The untiangle fold maps `-90` to itself. -/
lemma untiangleNormalize_neg90 : untiangleNormalize (-90 : ℝ) = -90 := by
  unfold untiangleNormalize jsMod jsTrunc
  rw [if_neg (by norm_num : ¬(0 : ℝ) ≤ -90 / 360)]
  have hc : ⌈(-90 / 360 : ℝ)⌉ = 0 := by
    rw [Int.ceil_eq_iff]
    constructor <;> norm_num
  rw [hc]
  norm_num

/-! ## Evaluations of the validators on concrete strings -/

lemma untiangleNormalize_200_rat : untiangleNormalize (200 : ℚ) = -160 := by
  simp only [untiangleNormalize, jsMod, jsTrunc]
  rw [if_pos (by norm_num : (0 : ℚ) ≤ 200 / 360)]
  have h : ⌊(200 / 360 : ℚ)⌋ = 0 := by
    rw [Int.floor_eq_iff]
    constructor <;> norm_num
  rw [h]
  norm_num

lemma untiangleNormalize_12_rat : untiangleNormalize (12 : ℚ) = 12 := by
  simp only [untiangleNormalize, jsMod, jsTrunc]
  rw [if_pos (by norm_num : (0 : ℚ) ≤ 12 / 360)]
  have h : ⌊(12 / 360 : ℚ)⌋ = 0 := by
    rw [Int.floor_eq_iff]
    constructor <;> norm_num
  rw [h]
  norm_num

lemma untiangleNormalize_0_rat : untiangleNormalize (0 : ℚ) = 0 := by
  simp only [untiangleNormalize, jsMod, jsTrunc]
  norm_num

/-- Scenario A: the untiangle validator folds the typed text `"200"` to
`200 - 360 = -160`. -/
lemma untiangleClassValidator_200 :
    untiangleClassValidator "200" = some (-160) := by
  simp only [untiangleClassValidator]
  rw [show orZero "200" = "200" from rfl, parseFloatJS_200]
  show some (untiangleNormalize (200 : ℚ)) = some (-160)
  rw [untiangleNormalize_200_rat]

lemma untiangleClassValidator_12abc :
    untiangleClassValidator "12abc" = some 12 := by
  simp only [untiangleClassValidator]
  rw [show orZero "12abc" = "12abc" from rfl, parseFloatJS_12abc]
  show some (untiangleNormalize (12 : ℚ)) = some 12
  rw [untiangleNormalize_12_rat]

lemma untiangleClassValidator_empty :
    untiangleClassValidator "" = some 0 := by
  simp only [untiangleClassValidator]
  rw [show orZero "" = "0" from rfl, parseFloatJS_zero]
  show some (untiangleNormalize (0 : ℚ)) = some 0
  rw [untiangleNormalize_0_rat]

lemma untiangleClassValidator_abc :
    untiangleClassValidator "abc" = none := rfl

lemma percentClassValidator_12abc :
    percentClassValidator "12abc" = some 12 := by
  simp only [percentClassValidator]
  rw [show orZero "12abc" = "12abc" from rfl, parseFloatJS_12abc]

lemma percentClassValidator_empty :
    percentClassValidator "" = some 0 := by
  simp only [percentClassValidator]
  rw [show orZero "" = "0" from rfl, parseFloatJS_zero]

lemma percentClassValidator_abc :
    percentClassValidator "abc" = none := rfl

lemma percentClassValidator_42 :
    percentClassValidator "42" = some 42 := by
  simp only [percentClassValidator]
  rw [show orZero "42" = "42" from rfl, parseFloatJS_42]

/-- The untiangle validator rejects exactly when `parseFloat(text || 0)`
is `NaN`. -/
lemma untiangleClassValidator_none_iff (t : String) :
    untiangleClassValidator t = none ↔ parseFloatJS (orZero t) = none := by
  rcases hp : parseFloatJS (orZero t) with _ | n
  · simp [untiangleClassValidator, hp]
  · simp [untiangleClassValidator, hp]

/-- The percent validator rejects exactly when `parseFloat(text || 0)`
is `NaN`. -/
lemma percentClassValidator_none_iff (t : String) :
    percentClassValidator t = none ↔ parseFloatJS (orZero t) = none := by
  rcases hp : parseFloatJS (orZero t) with _ | n
  · simp [percentClassValidator, hp]
  · simp [percentClassValidator, hp]

/-! ## Range of the untiangle fold -/

/-- The untiangle fold always lands in `(-180, 180]`. -/
lemma untiangleNormalize_mem (v : ℝ) :
    -180 < untiangleNormalize v ∧ untiangleNormalize v ≤ 180 := by
  obtain ⟨hb1, hb2⟩ := jsMod_360_bounds v
  simp only [untiangleNormalize]
  by_cases h1 : jsMod v 360 < 0
  · rw [if_pos h1]
    by_cases h2 : jsMod v 360 + 360 > 180
    · rw [if_pos h2]
      constructor <;> linarith
    · rw [if_neg h2]
      constructor <;> linarith
  · rw [if_neg h1]
    by_cases h2 : jsMod v 360 > 180
    · rw [if_pos h2]
      constructor <;> linarith
    · rw [if_neg h2]
      constructor <;> linarith

/-- The untiangle fold changes its argument by an integer multiple of
`360` (it is `v mod 360`, folded into the symmetric range). -/
lemma untiangleNormalize_congruent (v : ℝ) :
    ∃ k : ℤ, untiangleNormalize v = v - 360 * (k : ℝ) := by
  obtain ⟨kt, hkt⟩ := jsMod_eq_sub v
  simp only [untiangleNormalize]
  by_cases h1 : jsMod v 360 < 0
  · rw [if_pos h1]
    by_cases h2 : jsMod v 360 + 360 > 180
    · rw [if_pos h2]
      exact ⟨kt, by rw [hkt]; ring⟩
    · rw [if_neg h2]
      exact ⟨kt - 1, by rw [hkt]; push_cast; ring⟩
  · rw [if_neg h1]
    by_cases h2 : jsMod v 360 > 180
    · rw [if_pos h2]
      exact ⟨kt + 1, by rw [hkt]; push_cast; ring⟩
    · rw [if_neg h2]
      exact ⟨kt, hkt⟩

/-- The untiangle fold maps `200` to `-160`, over `ℝ`. -/
lemma untiangleNormalize_200_real : untiangleNormalize (200 : ℝ) = -160 := by
  simp only [untiangleNormalize, jsMod, jsTrunc]
  rw [if_pos (by norm_num : (0 : ℝ) ≤ 200 / 360)]
  have h : ⌊(200 / 360 : ℝ)⌋ = 0 := by
    rw [Int.floor_eq_iff]
    constructor <;> norm_num
  rw [h]
  norm_num

/-! ## Supporting evaluations for the mouse-move output pairs -/

lemma floor_committed_up : ⌊(72013 / 200 : ℝ) / (3565 / 1000)⌋ = 101 := by
  rw [Int.floor_eq_iff]
  constructor <;> norm_num

lemma percentMouseMoveOutputs_up :
    percentMouseMoveOutputs 0 (-50) = some (0, 72013 / 200) := by
  simp only [percentMouseMoveOutputs, pointToDegrees_percent_up,
    Option.map_some']
  rw [percent_display_at_up]

lemma untiangleMouseMoveOutputs_east :
    untiangleMouseMoveOutputs 47 0 = some (-90, -90) := by
  simp only [untiangleMouseMoveOutputs, pointToDegrees_untiangle_east,
    Option.map_some']
  rw [untiangleNormalize_neg90]

/-! ## The claims -/

/-- C1: the untiangle `classValidator` accepts every real input as the input
folded modulo 360 (an integer multiple of 360 is subtracted), landing in the
symmetric range `(WRAP - 360, WRAP] = (-180, 180]`; in particular a field
initialized with `"200"` holds `200 - 360 = -160`. -/
theorem c1_untiangle_normalization :
    (∀ v : ℝ, -180 < untiangleNormalize v ∧ untiangleNormalize v ≤ 180) ∧
    (∀ v : ℝ, ∃ k : ℤ, untiangleNormalize v = v - 360 * (k : ℝ)) ∧
    untiangleNormalize (200 : ℝ) = -160 ∧
    untiangleClassValidator "200" = some (-160) :=
  ⟨untiangleNormalize_mem, untiangleNormalize_congruent,
   untiangleNormalize_200_real, untiangleClassValidator_200⟩

/-- C2: mapping a degree value to the handle point with the `updateGraph_`
geometry and feeding the offset from the center back through the
`onMouseMove` pointer-to-degrees mapping recovers the value up to the
configured rounding quantization (half a rounding step) and up to an
integer multiple of 360, for both presets (untiangle: counterclockwise,
offset 90, round 15; percent: clockwise, offset 90, round 3.565). -/
theorem c2_geometry_roundtrip (v : ℝ) :
    (∃ a : ℝ, ∃ k : ℤ,
      pointToDegrees false 90 15 ((updateGraphPoint false 90 60 47 v).1 - 60)
        ((updateGraphPoint false 90 60 47 v).2 - 60) = some a ∧
      |a - (v - 360 * (k : ℝ))| ≤ 15 / 2) ∧
    (∃ a : ℝ, ∃ k : ℤ,
      pointToDegrees true 90 (3565 / 1000)
        ((updateGraphPoint true 90 60 47 v).1 - 60)
        ((updateGraphPoint true 90 60 47 v).2 - 60) = some a ∧
      |a - (v - 360 * (k : ℝ))| ≤ (3565 / 1000) / 2) :=
  ⟨mouseMove_roundtrip false 90 15 v (by norm_num),
   mouseMove_roundtrip true 90 (3565 / 1000) v (by norm_num)⟩

/-- C3: the percent `classValidator` is the identity on every finite numeric
input (it returns the parsed number unchanged, with no wraparound and no
clamping), and non-numeric input such as `"abc"` is rejected with `null`,
so the field's prior value is retained unchanged. -/
theorem c3_percent_identity_and_reject :
    (∀ (t : String) (q : ℚ), parseFloatJS (orZero t) = some q →
      percentClassValidator t = some q) ∧
    percentClassValidator "abc" = none ∧
    (∀ old : ℚ, percentTextEntryStep old "abc" = old) := by
  refine ⟨?_, percentClassValidator_abc, ?_⟩
  · intro t q h
    simp [percentClassValidator, h]
  · intro old
    simp [percentTextEntryStep, percentClassValidator_abc]

/-- Witness for C3 at the concrete input `"42"`. -/
theorem c3_percent_identity_and_reject_witness :
    percentClassValidator "42" = some 42 :=
  c3_percent_identity_and_reject.1 "42" 42
    (show parseFloatJS (orZero "42") = some 42 from parseFloatJS_42)

/-- C4: the pointer-to-degrees computation yields `NaN` exactly when both
pointer offsets are zero (pointer at the dial center), and in that case the
handler returns before any mutation: the value is left unchanged, for both
presets. -/
theorem c4_center_pointer_nan :
    (∀ (cw : Bool) (o r dx dy : ℝ),
      pointToDegrees cw o r dx dy = none ↔ dx = 0 ∧ dy = 0) ∧
    (∀ old : ℝ, untiangleMouseMoveStep old 0 0 = old) ∧
    (∀ old : ℝ, percentMouseMoveStep old 0 0 = old) := by
  refine ⟨pointToDegrees_none_iff, ?_, ?_⟩
  · intro old
    have h : pointToDegrees false 90 15 (0 : ℝ) 0 = none := by
      rw [pointToDegrees_none_iff]
      simp
    simp [untiangleMouseMoveStep, h]
  · intro old
    have h : pointToDegrees true 90 (3565 / 1000) (0 : ℝ) 0 = none := by
      rw [pointToDegrees_none_iff]
      simp
    simp [percentMouseMoveStep, h]

/-- C5 counterexample: at `dx = 0, dy = -50` the percent `onMouseMove` does
NOT ignore the event — `(-dy)/dx = +Infinity`, `Math.atan` gives `π/2`, not
`NaN`, so `pointToDegrees` produces a value. -/
theorem c5_counterexample :
    ¬(pointToDegrees true 90 (3565 / 1000) 0 (-50) = none) := by
  rw [pointToDegrees_percent_up]
  intro h
  exact Option.noConfusion h

/-- C5 (amended): a pointer-move at `dx = 0, dy = -50` (straight up) with
`clockwise = true`, `offset = 90` is NOT degenerate: `atan(-dy/dx) =
atan(+∞) = 90°`, the handler computes `90 + 360 - 90 = 360`, rounds to
`101 · 3.565 = 360.065`, and commits that finite value via `setValue`; no
`NaN` is produced (only `dx = 0 ∧ dy = 0` is ignored). -/
theorem c5_amended :
    pointToDegrees true 90 (3565 / 1000) 0 (-50) = some (72013 / 200) ∧
    (∀ old : ℝ, percentMouseMoveStep old 0 (-50) = 72013 / 200) := by
  refine ⟨pointToDegrees_percent_up, fun old => ?_⟩
  simp [percentMouseMoveStep, pointToDegrees_percent_up]

/-- C6: in the arc-path construction, the large-arc flag is `1` exactly when
`|effective - offset| > 180` (and `0` otherwise), and the sweep flag is the
clockwise boolean, flipped to `1 - sweepFlag` exactly when
`effective < offset`, where `effective = v mod 360 + offset`. -/
theorem c6_arc_flags (cw : Bool) (o v : ℚ) :
    ((updateGraphFlags cw o v).1 = 1 ↔ |jsMod v 360 + o - o| > 180) ∧
    ((updateGraphFlags cw o v).1 = 0 ↔ ¬(|jsMod v 360 + o - o| > 180)) ∧
    (updateGraphFlags cw o v).2
      = (if jsMod v 360 + o < o then 1 - (if cw then 1 else 0)
         else (if cw then 1 else 0)) := by
  simp only [updateGraphFlags]
  refine ⟨?_, ?_, trivial⟩ <;>
    by_cases h : |jsMod v 360 + o - o| > 180 <;> simp [h]

/-- C7: for the untiangle preset (`ROUND = 15`), every angle produced by the
pointer-to-degrees mapping (before the validator is applied) is an exact
multiple of 15, for every pointer position that is not the exact center. -/
theorem c7_untiangle_round_multiple (dx dy a : ℝ)
    (h : pointToDegrees false 90 15 dx dy = some a) :
    ∃ k : ℤ, a = 15 * (k : ℝ) := by
  rcases hat : atanResult dy dx with _ | a0
  · rw [pointToDegrees, hat] at h
    exact absurd h (by simp)
  · rw [pointToDegrees, hat, Option.map_some'] at h
    rw [if_pos (show (15 : ℝ) ≠ 0 by norm_num)] at h
    have h2 := Option.some.inj h
    rw [← h2]
    exact ⟨_, mul_comm _ _⟩

/-- Witness for C7 at the concrete pointer position `dx = 47, dy = 0`. -/
theorem c7_untiangle_round_multiple_witness :
    ∃ k : ℤ, (-90 : ℝ) = 15 * (k : ℝ) :=
  c7_untiangle_round_multiple 47 0 (-90) pointToDegrees_untiangle_east

/-- C8: when the editor opens, the percent preset rescales the committed
value to `text · ROUND` with `ROUND = 3.565` before the first redraw (so the
value genuinely changes for any nonzero text value), while the untiangle
preset performs no such rescaling. -/
theorem c8_editor_open_rescale (t : ℚ) (ht : t ≠ 0) :
    percentShowEditorValue t = t * (3565 / 1000) ∧
    percentShowEditorValue t ≠ t ∧
    untiangleShowEditorValue t = t := by
  refine ⟨rfl, ?_, rfl⟩
  intro h
  apply ht
  simp only [percentShowEditorValue] at h
  linarith

/-- Witness for C8 at the concrete text value `100`. -/
theorem c8_editor_open_rescale_witness :
    percentShowEditorValue 100 = 100 * (3565 / 1000) ∧
    percentShowEditorValue 100 ≠ 100 ∧
    untiangleShowEditorValue 100 = 100 :=
  c8_editor_open_rescale 100 (by norm_num)

/-- C9 counterexample: the percent handler at `dx = 0, dy = -50` shows `0`
in the HTML input (it floor-divides the angle reduced modulo 360), while
floor-dividing the committed (rounded) angle `360.065` itself by the
rounding constant gives `101` — so the displayed text is NOT the raw angle
floor-divided by the rounding constant. -/
theorem c9_counterexample :
    percentMouseMoveOutputs 0 (-50) = some (0, 72013 / 200) ∧
    (0 : ℤ) ≠ ⌊(72013 / 200 : ℝ) / (3565 / 1000)⌋ := by
  refine ⟨percentMouseMoveOutputs_up, ?_⟩
  rw [floor_committed_up]
  norm_num

/-- C9 (amended): in the percent pointer-move handler the displayed text is
the committed angle reduced modulo 360 and then floor-divided by the
rounding constant (`Math.floor((angle % 360) / ROUND)`), while the value
committed via `setValue` is the rounded angle itself; in the untiangle
handler the displayed text and the committed value are the same validated
rounded angle. -/
theorem c9_amended :
    (∀ (dx dy : ℝ) (d : ℤ) (c : ℝ),
      percentMouseMoveOutputs dx dy = some (d, c) →
      d = ⌊jsMod c 360 / (3565 / 1000)⌋) ∧
    (∀ (dx dy d c : ℝ),
      untiangleMouseMoveOutputs dx dy = some (d, c) → d = c) := by
  constructor
  · intro dx dy d c h
    rcases hp : pointToDegrees true 90 (3565 / 1000) dx dy with _ | angle
    · rw [percentMouseMoveOutputs, hp] at h
      exact absurd h (by simp)
    · rw [percentMouseMoveOutputs, hp, Option.map_some'] at h
      have h3 := Option.some.inj h
      obtain ⟨h1, h2⟩ : ⌊jsMod angle 360 / (3565 / 1000)⌋ = d ∧ angle = c :=
        ⟨congrArg Prod.fst h3, congrArg Prod.snd h3⟩
      rw [← h1, ← h2]
  · intro dx dy d c h
    rcases hp : pointToDegrees false 90 15 dx dy with _ | angle
    · rw [untiangleMouseMoveOutputs, hp] at h
      exact absurd h (by simp)
    · rw [untiangleMouseMoveOutputs, hp, Option.map_some'] at h
      have h3 := Option.some.inj h
      obtain ⟨h1, h2⟩ : untiangleNormalize angle = d ∧ untiangleNormalize angle = c :=
        ⟨congrArg Prod.fst h3, congrArg Prod.snd h3⟩
      rw [← h1, ← h2]

/-- Witness for C9 (amended) at the concrete pointer positions
`(0, -50)` (percent) and `(47, 0)` (untiangle). -/
theorem c9_amended_witness :
    (0 : ℤ) = ⌊jsMod (72013 / 200 : ℝ) 360 / (3565 / 1000)⌋ ∧
    (-90 : ℝ) = -90 :=
  ⟨c9_amended.1 0 (-50) 0 (72013 / 200) percentMouseMoveOutputs_up,
   c9_amended.2 47 0 (-90) (-90) untiangleMouseMoveOutputs_east⟩

/-- C10: both `classValidator`s reject (return `null`) exactly when
JavaScript `parseFloat` of `text || 0` is `NaN`; consequently a string with
a numeric prefix such as `"12abc"` is accepted as its numeric prefix value,
and the empty string is accepted as `0`. -/
theorem c10_parse_reject_semantics :
    (∀ t : String, untiangleClassValidator t = none ↔
      parseFloatJS (orZero t) = none) ∧
    (∀ t : String, percentClassValidator t = none ↔
      parseFloatJS (orZero t) = none) ∧
    untiangleClassValidator "12abc" = some 12 ∧
    percentClassValidator "12abc" = some 12 ∧
    untiangleClassValidator "" = some 0 ∧
    percentClassValidator "" = some 0 :=
  ⟨untiangleClassValidator_none_iff, percentClassValidator_none_iff,
   untiangleClassValidator_12abc, percentClassValidator_12abc,
   untiangleClassValidator_empty, percentClassValidator_empty⟩
